import Mathlib

/-!
Shallow embedding of the libcyclone HDOB parsing core (src/measure.rs,
src/geo.rs, src/recon.rs) and verification of the specification claims.

Modelling conventions:
- Rust `&str` tokens are modelled as `List Char` (one character per byte;
  every input in the format is ASCII).
- Rust functions that can panic are modelled as `Option`-returning
  functions, `none` standing for the panic (a fatal parse failure).
  Decoders whose Rust type is already `Option<T>` and that can also panic
  (e.g. `parse_temperature`, `parse_extrapolated_sfc_pressure`) become
  `Option (Option T)`: the outer layer is the panic, the inner layer is
  the absent-value result.
- Machine integers are modelled as `Int` (i32) and `Nat` (u32/u8); the
  numeric-token parsers enforce the exact range checks that
  `str::parse::<i32/u32/u8>` performs, so every parsed raw value is in
  the machine range.  The i32 arithmetic performed on parsed values can
  itself overflow (the `* 100` multiplies in `parse_aircraft_pressure`
  and `parse_temperature`, the `+ 273150` in
  `Temperature::with_millicelsius`); those operations carry explicit
  i32 range checks, with overflow modelled as the checked-arithmetic
  panic (`none`) — the semantics of the crate's test (debug) profile.
  `u32` arithmetic inside `Angle::with_degrees_minutes_seconds` is
  reduced modulo 2^32.  Signed division (`Pressure::millibars`) uses
  `Int.tdiv`, Rust's toward-zero semantics.
-/

set_option autoImplicit false

namespace Libcyclone

/-! ### Numeric token parsing (Rust `str::parse`) -/

/-- Is `c` an ASCII decimal digit? -/
def isAsciiDigit (c : Char) : Bool :=
  48 ≤ c.toNat && c.toNat ≤ 57

/-- Numeric value of an ASCII digit character. -/
def digitVal (c : Char) : Nat := c.toNat - 48

/-- Accumulator loop: value of a string of ASCII digits, `none` if any
character is not a digit. -/
def digitsValAux : List Char → Nat → Option Nat
  | [], acc => some acc
  | c :: rest, acc =>
    if isAsciiDigit c then digitsValAux rest (acc * 10 + digitVal c) else none

/-- Value of a non-empty string of ASCII digits; `none` on the empty
string or any non-digit character. -/
def digitsVal : List Char → Option Nat
  | [] => none
  | c :: rest => digitsValAux (c :: rest) 0

/-- Rust `str::parse::<u32>`: optional leading plus sign, then one or
more ASCII digits, value at most 2^32 - 1. -/
def parse_u32 (l : List Char) : Option Nat :=
  let body := match l with
    | '+' :: rest => rest
    | _ => l
  match digitsVal body with
  | some v => if v < 4294967296 then some v else none
  | none => none

/-- Rust `str::parse::<u8>`: optional leading plus sign, then one or
more ASCII digits, value at most 255. -/
def parse_u8 (l : List Char) : Option Nat :=
  let body := match l with
    | '+' :: rest => rest
    | _ => l
  match digitsVal body with
  | some v => if v < 256 then some v else none
  | none => none

/-- Rust `str::parse::<i32>`: optional sign, then one or more ASCII
digits, value within the i32 range. -/
def parse_i32 (l : List Char) : Option Int :=
  match l with
  | '-' :: rest =>
    match digitsVal rest with
    | some v => if v ≤ 2147483648 then some (-(v : Int)) else none
    | none => none
  | '+' :: rest =>
    match digitsVal rest with
    | some v => if v < 2147483648 then some (v : Int) else none
    | none => none
  | _ =>
    match digitsVal l with
    | some v => if v < 2147483648 then some (v : Int) else none
    | none => none

/-! ### Measurement value types (src/measure.rs) -/

/-- Barometric pressure, stored in microbars (i32). -/
structure Pressure where
  microbars : Int
deriving DecidableEq, Repr

/-- Constructor `Pressure::with_microbars`. -/
def Pressure.with_microbars (b : Int) : Pressure := ⟨b⟩

/-- Accessor `Pressure::millibars`: i32 division by 1000 (toward zero). -/
def Pressure.millibars (p : Pressure) : Int := Int.tdiv p.microbars 1000

/-- D-Value, stored in meters (i32). -/
structure DValue where
  meters : Int
deriving DecidableEq, Repr

/-- Constructor `DValue::with_meters`. -/
def DValue.with_meters (m : Int) : DValue := ⟨m⟩

/-- Angle, stored in arc-seconds (u32). -/
structure Angle where
  seconds : Nat
deriving DecidableEq, Repr

/-- Constructor `Angle::with_degrees_minutes_seconds`:
`d * 60 * 60 + m * 60 + s` in u32 arithmetic (reduced mod 2^32). -/
def Angle.with_degrees_minutes_seconds (d m s : Nat) : Angle :=
  ⟨(d * 60 * 60 + m * 60 + s) % 4294967296⟩

/-- Accessor `Angle::degrees_minutes_seconds`. -/
def Angle.degrees_minutes_seconds (a : Angle) : Nat × Nat × Nat :=
  (a.seconds / (60 * 60), a.seconds % (60 * 60) / 60, a.seconds % 60)

/-- Geopotential height, stored in meters (u32). -/
structure Altitude where
  meters : Nat
deriving DecidableEq, Repr

/-- Constructor `Altitude::with_meters`. -/
def Altitude.with_meters (m : Nat) : Altitude := ⟨m⟩

/-- Temperature, stored in millikelvin (u32). -/
structure Temperature where
  millikelvin : Nat
deriving DecidableEq, Repr

/-- Constructor `Temperature::with_millikelvin`. -/
def Temperature.with_millikelvin (mk : Nat) : Temperature := ⟨mk⟩

/-- Constructor `Temperature::with_millicelsius`: computes the i32 sum
`mc + 273150` and panics (modelled as `none`) when the result is
negative.  When the mathematical sum exceeds i32::MAX the i32 addition
overflows and the constructor fails in both build modes — checked
arithmetic panics on the add itself, wrapping arithmetic wraps the sum
to a negative value which then hits the absolute-zero panic — so the
overflow is likewise modelled as `none`. -/
def Temperature.with_millicelsius (mc : Int) : Option Temperature :=
  let mkv := mc + 273150
  if 2147483647 < mkv then none
  else if mkv < 0 then none
  else some ⟨mkv.toNat⟩

/-- Accessor `Temperature::celsius`: `(self.0 - 273150) / 1000` in u32
arithmetic; the subtraction underflows (panics under checked
arithmetic, modelled as `none`) when the stored value is below 273150. -/
def Temperature.celsius (t : Temperature) : Option Nat :=
  if t.millikelvin < 273150 then none
  else some ((t.millikelvin - 273150) / 1000)

/-- Accessor `Temperature::kelvin`. -/
def Temperature.kelvin (t : Temperature) : Nat := t.millikelvin / 1000

/-- Speed, stored in knots (u32). -/
structure Speed where
  knots : Nat
deriving DecidableEq, Repr

/-- Constructor `Speed::with_knots`. -/
def Speed.with_knots (kt : Nat) : Speed := ⟨kt⟩

/-- Rain rate, stored in millimeters per hour (u32). -/
structure RainRate where
  mm_per_hr : Nat
deriving DecidableEq, Repr

/-- Constructor `RainRate::with_mm_per_hr`. -/
def RainRate.with_mm_per_hr (r : Nat) : RainRate := ⟨r⟩

/-- Compass direction: a wrapped `Angle`. -/
structure Direction where
  angle : Angle
deriving DecidableEq, Repr

/-- Constructor `Direction::with_angle`. -/
def Direction.with_angle (a : Angle) : Direction := ⟨a⟩

/-- Wind: direction and speed. -/
structure Wind where
  direction : Direction
  speed : Speed
deriving DecidableEq, Repr

/-- Constructor `Wind::with_direction_and_speed`. -/
def Wind.with_direction_and_speed (d : Direction) (s : Speed) : Wind :=
  ⟨d, s⟩

/-! ### Geo types (src/geo.rs) -/

/-- Latitude hemisphere tag. -/
inductive LatitudeHemisphere where
  | NORTH
  | SOUTH
deriving DecidableEq, Repr

/-- Longitude hemisphere tag. -/
inductive LongitudeHemisphere where
  | EAST
  | WEST
deriving DecidableEq, Repr

/-- Latitude: angle plus hemisphere. -/
structure Latitude where
  angle : Angle
  hemisphere : LatitudeHemisphere
deriving DecidableEq, Repr

/-- Longitude: angle plus hemisphere. -/
structure Longitude where
  angle : Angle
  hemisphere : LongitudeHemisphere
deriving DecidableEq, Repr

/-- Coordinate: latitude and longitude. -/
structure Coordinate where
  latitude : Latitude
  longitude : Longitude
deriving DecidableEq, Repr

/-! ### Field decoders (src/recon.rs) -/

/-- The missing-value sentinel token, the Rust constant
`MISSING: &str = "///"`. -/
def MISSING : List Char := ['/', '/', '/']

/-- Extrapolated surface pressure: either a pressure or a D-value. -/
inductive ExtrapolatedSurfacePressure where
  | ExtrapolatedPressure (p : Pressure)
  | DValue (d : DValue)
deriving DecidableEq, Repr

/-- A UTC calendar day (`chrono::Date<Utc>`); only carried through the
parse, never inspected by the decoders. -/
structure UtcDate where
  year : Int
  month : Nat
  day : Nat
deriving DecidableEq, Repr

/-- A UTC timestamp (`chrono::DateTime<Utc>`): a day plus time of day. -/
structure UtcDateTime where
  date : UtcDate
  hours : Nat
  mins : Nat
  secs : Nat
deriving DecidableEq, Repr

/-- Chrono `Date::and_hms`: panics (modelled as `none`) on an invalid
hour/minute/second. -/
def UtcDate.and_hms (d : UtcDate) (h m s : Nat) : Option UtcDateTime :=
  if h < 24 ∧ m < 60 ∧ s < 60 then some ⟨d, h, m, s⟩ else none

/-- Try to match the regex `([0-9]{2})([0-9]{2})([0-9]{2})` at the start
of the character list: six ASCII digits, grouped in pairs. -/
def tryTimeAt : List Char → Option (Nat × Nat × Nat)
  | c0 :: c1 :: c2 :: c3 :: c4 :: c5 :: _ =>
    if isAsciiDigit c0 && isAsciiDigit c1 && isAsciiDigit c2 &&
        isAsciiDigit c3 && isAsciiDigit c4 && isAsciiDigit c5 then
      some (digitVal c0 * 10 + digitVal c1,
            digitVal c2 * 10 + digitVal c3,
            digitVal c4 * 10 + digitVal c5)
    else none
  | _ => none

/-- Unanchored leftmost search for `([0-9]{2})([0-9]{2})([0-9]{2})`,
matching `Regex::captures` semantics. -/
def findTime : List Char → Option (Nat × Nat × Nat)
  | [] => none
  | c :: rest =>
    match tryTimeAt (c :: rest) with
    | some r => some r
    | none => findTime rest

/-- Decoder `parse_hhmmss`: regex capture of HH, MM, SS, then
`date.and_hms`; panics (`none`) when the regex does not match or the
time is invalid. -/
def parse_hhmmss (date : UtcDate) (hhmmss : List Char) : Option UtcDateTime :=
  match findTime hhmmss with
  | none => none
  | some (h, m, s) => date.and_hms h m s

/-- Try to match `([0-9]{2})([0-9]{2})([NS])` at the start of the list. -/
def tryLatAt : List Char → Option (Nat × Nat × LatitudeHemisphere)
  | c0 :: c1 :: c2 :: c3 :: c4 :: _ =>
    if isAsciiDigit c0 && isAsciiDigit c1 && isAsciiDigit c2 &&
        isAsciiDigit c3 then
      if c4 = 'N' then
        some (digitVal c0 * 10 + digitVal c1,
              digitVal c2 * 10 + digitVal c3, LatitudeHemisphere.NORTH)
      else if c4 = 'S' then
        some (digitVal c0 * 10 + digitVal c1,
              digitVal c2 * 10 + digitVal c3, LatitudeHemisphere.SOUTH)
      else none
    else none
  | _ => none

/-- Unanchored leftmost search for the latitude regex. -/
def findLat : List Char → Option (Nat × Nat × LatitudeHemisphere)
  | [] => none
  | c :: rest =>
    match tryLatAt (c :: rest) with
    | some r => some r
    | none => findLat rest

/-- Try to match `([0-9]{3})([0-9]{2})([EW])` at the start of the list. -/
def tryLonAt : List Char → Option (Nat × Nat × LongitudeHemisphere)
  | c0 :: c1 :: c2 :: c3 :: c4 :: c5 :: _ =>
    if isAsciiDigit c0 && isAsciiDigit c1 && isAsciiDigit c2 &&
        isAsciiDigit c3 && isAsciiDigit c4 then
      if c5 = 'E' then
        some (digitVal c0 * 100 + digitVal c1 * 10 + digitVal c2,
              digitVal c3 * 10 + digitVal c4, LongitudeHemisphere.EAST)
      else if c5 = 'W' then
        some (digitVal c0 * 100 + digitVal c1 * 10 + digitVal c2,
              digitVal c3 * 10 + digitVal c4, LongitudeHemisphere.WEST)
      else none
    else none
  | _ => none

/-- Unanchored leftmost search for the longitude regex. -/
def findLon : List Char → Option (Nat × Nat × LongitudeHemisphere)
  | [] => none
  | c :: rest =>
    match tryLonAt (c :: rest) with
    | some r => some r
    | none => findLon rest

/-- Decoder `parse_latlon`: both regexes must match; seconds are always
zero; panics (`none`) on no match. -/
def parse_latlon (llllh nnnnnh : List Char) : Option Coordinate :=
  match findLat llllh, findLon nnnnnh with
  | some (lad, lam, lah), some (lod, lom, loh) =>
    some ⟨⟨Angle.with_degrees_minutes_seconds lad lam 0, lah⟩,
          ⟨Angle.with_degrees_minutes_seconds lod lom 0, loh⟩⟩
  | _, _ => none

/-- Decoder `parse_aircraft_pressure`: i32 parse (panic → `none`), then
the leading-digit disambiguation: raw > 2000 is used directly, else the
elided leading "10" is restored by adding 10000; scaled by 100 to
microbars.  The `* 100` is an i32 multiply, which overflows for large
parsed values (e.g. the token "99999999"); under checked (test-profile)
arithmetic the overflow panics, modelled as `none`.  (With wrapping
arithmetic the product would be a different, wrapped value — never the
mathematical product.)  The `raw + 10000` addition cannot overflow,
since that branch requires raw ≤ 2000. -/
def parse_aircraft_pressure (pppp : List Char) : Option Pressure :=
  match parse_i32 pppp with
  | none => none
  | some raw =>
    if raw > 2000 then
      if raw * 100 < -2147483648 ∨ 2147483647 < raw * 100 then none
      else some (Pressure.with_microbars (raw * 100))
    else
      if (raw + 10000) * 100 < -2147483648 ∨ 2147483647 < (raw + 10000) * 100 then none
      else some (Pressure.with_microbars ((raw + 10000) * 100))

/-- Decoder `parse_extrapolated_sfc_pressure`; the outer `Option` is the
panic on an unparsable non-sentinel token, the inner `Option` is the
absent value for the `"///"` sentinel. -/
def parse_extrapolated_sfc_pressure (altitude : Pressure) (xxxx : List Char) :
    Option (Option ExtrapolatedSurfacePressure) :=
  if xxxx = MISSING then some none
  else if altitude.millibars < 550 then
    match parse_i32 xxxx with
    | none => none
    | some raw =>
      if raw > 5000 then
        some (some (ExtrapolatedSurfacePressure.DValue
          (DValue.with_meters (-1 * (raw - 5000)))))
      else
        some (some (ExtrapolatedSurfacePressure.DValue (DValue.with_meters raw)))
  else
    match parse_aircraft_pressure xxxx with
    | none => none
    | some p => some (some (ExtrapolatedSurfacePressure.ExtrapolatedPressure p))

/-- Decoder `parse_temperature`: `sttt.parse().map(..).ok()` — a failed
i32 parse yields the absent value, a successful parse runs
`Temperature::with_millicelsius(mc * 100)` whose panic propagates
(outer `none`).  The `mc * 100` is an i32 multiply that overflows for
|mc| ≥ 21474837; the overflow panic of checked (test-profile)
arithmetic is modelled as `none`. -/
def parse_temperature (sttt : List Char) : Option (Option Temperature) :=
  match parse_i32 sttt with
  | none => some none
  | some mc =>
    if mc * 100 < -2147483648 ∨ 2147483647 < mc * 100 then none
    else
      match Temperature.with_millicelsius (mc * 100) with
      | none => none
      | some t => some (some t)

/-- Decoder `parse_wind`: a failed u32 parse yields the absent value;
direction is `raw / 1000` whole degrees, speed `raw % 1000` knots. -/
def parse_wind (www_sss : List Char) : Option Wind :=
  match parse_u32 www_sss with
  | none => none
  | some raw =>
    some (Wind.with_direction_and_speed
      (Direction.with_angle (Angle.with_degrees_minutes_seconds (raw / 1000) 0 0))
      (Speed.with_knots (raw % 1000)))

/-- Decoder `parse_speed`: a failed u32 parse yields the absent value. -/
def parse_speed (sss : List Char) : Option Speed :=
  match parse_u32 sss with
  | none => none
  | some knots => some (Speed.with_knots knots)

/-- Decoder `parse_rain_rate`: a failed u32 parse yields the absent
value. -/
def parse_rain_rate (ppp : List Char) : Option RainRate :=
  match parse_u32 ppp with
  | none => none
  | some r => some (RainRate.with_mm_per_hr r)

/-! ### Line parser (HDHALog, src/recon.rs) -/

/-- Position-quality decode: the `match quality / 10` block inside
`HDHALog::parse`; the wildcard arm panics (`none`). The pair is
(latlon questionable, altitude-or-pressure questionable). -/
def posQualityFlags : Nat → Option (Bool × Bool)
  | 0 => some (false, false)
  | 1 => some (true, false)
  | 2 => some (false, true)
  | 3 => some (true, true)
  | _ => none

/-- Meteorological-quality decode: the `match quality % 10` block inside
`HDHALog::parse`; the wildcard arm panics (`none`). The triple is
(temp-or-dewpoint, winds, SFMR questionable). -/
def metQualityFlags : Nat → Option (Bool × Bool × Bool)
  | 0 => some (false, false, false)
  | 1 => some (true, false, false)
  | 2 => some (false, true, false)
  | 3 => some (false, false, true)
  | 4 => some (true, true, false)
  | 5 => some (true, false, true)
  | 6 => some (false, true, true)
  | 9 => some (true, true, true)
  | _ => none

/-- Rust `line.split(" ")`: split at every single-space occurrence,
keeping empty pieces. -/
def splitSpaces : List Char → List (List Char)
  | [] => [[]]
  | c :: rest =>
    if c = ' ' then [] :: splitSpaces rest
    else
      match splitSpaces rest with
      | t :: ts => (c :: t) :: ts
      | [] => [[c]]

/-- One observation record (struct `HDHALog`). -/
structure HDHALog where
  time : UtcDateTime
  location : Coordinate
  aircraft_pressure : Pressure
  height : Altitude
  surface_pressure : Option ExtrapolatedSurfacePressure
  temp : Option Temperature
  dewpoint : Option Temperature
  wind : Option Wind
  peak_wind_speed : Option Speed
  peak_sfmr_speed : Option Speed
  rain_rate : Option RainRate
  latlon_questionable : Bool
  altitude_or_pressure_questionable : Bool
  temp_or_dewpoint_questionable : Bool
  winds_questionable : Bool
  sfmr_questionable : Bool
deriving DecidableEq, Repr

/-- Body of `HDHALog::parse` after the split: thirteen `cols.next()`
calls in source order (any shorter token list panics on the missing
token, extra tokens are left unconsumed by the iterator), then the
quality-code decode. -/
def HDHALog.parseCols (date : UtcDate) (cols : List (List Char)) :
    Option HDHALog :=
  match cols with
  | t0 :: t1 :: t2 :: t3 :: t4 :: t5 :: t6 :: t7 :: t8 :: t9 :: t10 ::
      t11 :: t12 :: _ => do
    let time ← parse_hhmmss date t0
    let location ← parse_latlon t1 t2
    let aircraft_pressure ← parse_aircraft_pressure t3
    let heightRaw ← parse_u32 t4
    let height := Altitude.with_meters heightRaw
    let surface_pressure ← parse_extrapolated_sfc_pressure aircraft_pressure t5
    let temp ← parse_temperature t6
    let dewpoint ← parse_temperature t7
    let wind := parse_wind t8
    let peak_wind_speed := parse_speed t9
    let peak_sfmr_speed := parse_speed t10
    let rain_rate := parse_rain_rate t11
    let quality ← parse_u8 t12
    let pos ← posQualityFlags (quality / 10)
    let met ← metQualityFlags (quality % 10)
    some { time, location, aircraft_pressure, height, surface_pressure,
           temp, dewpoint, wind, peak_wind_speed, peak_sfmr_speed,
           rain_rate,
           latlon_questionable := pos.1,
           altitude_or_pressure_questionable := pos.2,
           temp_or_dewpoint_questionable := met.1,
           winds_questionable := met.2.1,
           sfmr_questionable := met.2.2 }
  | _ => none

/-- `HDHALog::parse`: split the line on single spaces, then decode the
columns. -/
def HDHALog.parse (date : UtcDate) (line : List Char) : Option HDHALog :=
  HDHALog.parseCols date (splitSpaces line)

/-! ### Message observation loop (HDOBMessage::parse, src/recon.rs) -/

/-- The end-of-message sentinel line, the literal `"$$"`. -/
def END_MARKER : List Char := ['$', '$']

/-- The observation-collection loop of `HDOBMessage::parse` (the `for
line in lines` loop): each remaining line is parsed and pushed until a
line equal to `"$$"` breaks the loop; a line-parse panic (`none`)
aborts the whole message. -/
def HDOBMessage.parseObsLines (date : UtcDate) :
    List (List Char) → Option (List HDHALog)
  | [] => some []
  | line :: rest =>
    if line = END_MARKER then some []
    else do
      let log ← HDHALog.parse date line
      let tail ← HDOBMessage.parseObsLines date rest
      some (log :: tail)

/-! ### Concrete fixtures used in the claim statements (from the Rust
unit tests in src/recon.rs) -/

/-- The observation date used by the Rust unit tests. -/
def DATE0 : UtcDate := ⟨2022, 9, 1⟩

/-- `LINE1` from the Rust test `test_parse_hdha`. -/
def LINE1 : List Char :=
  ("181830 2006N 06141W 9236 00794 0115 +201 +173 123041 041 021 002 00").data

/-- `LINE1` with the quality code replaced by the invalid code 93. -/
def LINE93 : List Char :=
  ("181830 2006N 06141W 9236 00794 0115 +201 +173 123041 041 021 002 93").data

/-- `LINE1` with one extra trailing token (14 tokens in total). -/
def LINE14 : List Char :=
  ("181830 2006N 06141W 9236 00794 0115 +201 +173 123041 041 021 002 00 99").data

/-- A line from the Rust test `test_parse_hdha` with the `"///"`
sentinel in every optional column. -/
def LINE_MISSING : List Char :=
  ("135600 1821N 06526W 7752 02317 /// /// /// /// /// /// /// 03").data

/-- The record `LINE_MISSING` parses to (all optional fields absent). -/
def LOG_MISSING : HDHALog :=
  { time := ⟨⟨2022, 9, 1⟩, 13, 56, 0⟩,
    location := ⟨⟨⟨66060⟩, LatitudeHemisphere.NORTH⟩,
                 ⟨⟨235560⟩, LongitudeHemisphere.WEST⟩⟩,
    aircraft_pressure := ⟨775200⟩,
    height := ⟨2317⟩,
    surface_pressure := none, temp := none, dewpoint := none,
    wind := none, peak_wind_speed := none, peak_sfmr_speed := none,
    rain_rate := none,
    latlon_questionable := false,
    altitude_or_pressure_questionable := false,
    temp_or_dewpoint_questionable := false,
    winds_questionable := false,
    sfmr_questionable := true }

/-! ## Theorems -/

/-- Helper: an `Option` bind is `none` when the continuation is `none`
on the (possible) contents. -/
theorem bind_none_of_mem {α β : Type} {x : Option α} {f : α → Option β}
    (h : ∀ a, x = some a → f a = none) : x >>= f = none := by
  cases x with
  | none => rfl
  | some a => exact h a rfl

/-- Helper: the digit-accumulator loop is bounded by place value. -/
theorem digitsValAux_lt (l : List Char) (acc v : Nat)
    (h : digitsValAux l acc = some v) : v < (acc + 1) * 10 ^ l.length := by
  induction l generalizing acc with
  | nil =>
    simp only [digitsValAux, Option.some.injEq] at h
    simp only [List.length_nil, pow_zero, mul_one]
    omega
  | cons c rest ih =>
    simp only [digitsValAux] at h
    by_cases hd : isAsciiDigit c
    · rw [if_pos hd] at h
      have hb := ih (acc * 10 + digitVal c) h
      have hdv : digitVal c ≤ 9 := by
        simp only [isAsciiDigit, Bool.and_eq_true, decide_eq_true_eq] at hd
        simp only [digitVal]
        omega
      simp only [List.length_cons]
      calc v < (acc * 10 + digitVal c + 1) * 10 ^ rest.length := hb
        _ ≤ ((acc + 1) * 10) * 10 ^ rest.length :=
            Nat.mul_le_mul_right _ (by omega)
        _ = (acc + 1) * 10 ^ (rest.length + 1) := by ring
    · rw [if_neg hd] at h
      exact absurd h (by simp)

/-- Helper: a string of d digits has value below 10 ^ d. -/
theorem digitsVal_lt (l : List Char) (v : Nat) (h : digitsVal l = some v) :
    v < 10 ^ l.length := by
  rcases l with _ | ⟨c, rest⟩
  · simp [digitsVal] at h
  · have hb := digitsValAux_lt (c :: rest) 0 v h
    simpa using hb

/-- Helper: a 4-character token accepted by the i32 parser has a value
in (-1000, 10000) — at most four digits, three when a sign is present. -/
theorem parse_i32_len4 (l : List Char) (raw : Int) (hlen : l.length = 4)
    (h : parse_i32 l = some raw) : -1000 < raw ∧ raw < 10000 := by
  unfold parse_i32 at h
  split at h
  · rename_i rest
    cases hv : digitsVal rest with
    | none => rw [hv] at h; exact absurd h (by simp)
    | some v =>
      simp only [hv] at h
      have hb := digitsVal_lt rest v hv
      have hr3 : rest.length = 3 := by
        simp only [List.length_cons] at hlen
        omega
      rw [hr3] at hb
      norm_num at hb
      split at h
      · injection h with h
        omega
      · exact absurd h (by simp)
  · rename_i rest
    cases hv : digitsVal rest with
    | none => rw [hv] at h; exact absurd h (by simp)
    | some v =>
      simp only [hv] at h
      have hb := digitsVal_lt rest v hv
      have hr3 : rest.length = 3 := by
        simp only [List.length_cons] at hlen
        omega
      rw [hr3] at hb
      norm_num at hb
      split at h
      · injection h with h
        omega
      · exact absurd h (by simp)
  · cases hv : digitsVal l with
    | none => rw [hv] at h; exact absurd h (by simp)
    | some v =>
      simp only [hv] at h
      have hb := digitsVal_lt l v hv
      rw [hlen] at hb
      norm_num at hb
      split at h
      · injection h with h
        omega
      · exact absurd h (by simp)

/-- Helper: the wildcard arm of the position-quality match fires for
every tens digit above 3. -/
theorem posQualityFlags_gt_three (n : Nat) (h : 3 < n) :
    posQualityFlags n = none := by
  obtain ⟨k, rfl⟩ : ∃ k, n = k + 4 := ⟨n - 4, by omega⟩
  rfl

/-- C7: for all d < 360, m < 60, s < 60, constructing an `Angle` from
degrees/minutes/seconds and decomposing it back is the identity
(pure integer arithmetic, no rounding). -/
theorem c7_angle_dms_roundtrip (d m s : Nat)
    (hd : d < 360) (hm : m < 60) (hs : s < 60) :
    (Angle.with_degrees_minutes_seconds d m s).degrees_minutes_seconds
      = (d, m, s) := by
  have hlt : d * 60 * 60 + m * 60 + s < 4294967296 := by omega
  simp only [Angle.with_degrees_minutes_seconds, Angle.degrees_minutes_seconds,
    Nat.mod_eq_of_lt hlt, Prod.mk.injEq]
  omega

/-- Witness for C7 at (20, 6, 0). -/
theorem c7_angle_dms_roundtrip_witness :
    (Angle.with_degrees_minutes_seconds 20 6 0).degrees_minutes_seconds
      = (20, 6, 0) :=
  c7_angle_dms_roundtrip 20 6 0 (by decide) (by decide) (by decide)

/-- C9 counterexample: at mc = 2147483647 (i32::MAX — an input of at
least -273150, so the claim predicts success) the constructor fails:
the i32 addition mc + 273150 overflows, so checked arithmetic panics on
the add and wrapping arithmetic produces a negative sum that hits the
absolute-zero panic. -/
theorem c9_with_millicelsius_counterexample :
    Temperature.with_millicelsius 2147483647 = none ∧
    ¬ (2147483647 : Int) < -273150 := by
  exact ⟨by decide, by decide⟩

/-- C9 amended: `with_millicelsius` computes mc + 273150 and fails when
that result is negative (mc < -273150) or when the i32 addition
overflows (mc > 2147210497 = i32::MAX - 273150); for every mc between
those bounds it succeeds, storing exactly mc + 273150 millikelvin.  The
last two conjuncts range over both failure regions as mc ranges over
its hypotheses: `-273151 - (mc + 273150)` takes every value in
[-2147756798, -273151], covering all i32 inputs below -273150, and
`2147210498 + (mc + 273150)` takes every value in
[2147210498, 4294694145], covering all i32 inputs above 2147210497. -/
theorem c9_with_millicelsius_spec (mc : Int)
    (h1 : -273150 ≤ mc) (h2 : mc ≤ 2147210497) :
    Temperature.with_millicelsius mc
        = some (Temperature.with_millikelvin (mc + 273150).toNat) ∧
    ((mc + 273150).toNat : Int) = mc + 273150 ∧
    Temperature.with_millicelsius (-273151 - (mc + 273150)) = none ∧
    Temperature.with_millicelsius (2147210498 + (mc + 273150)) = none := by
  refine ⟨?_, by omega, ?_, ?_⟩
  · simp only [Temperature.with_millicelsius, Temperature.with_millikelvin]
    rw [if_neg (by omega), if_neg (by omega)]
  · simp only [Temperature.with_millicelsius]
    rw [if_neg (by omega), if_pos (by omega)]
  · simp only [Temperature.with_millicelsius]
    rw [if_pos (by omega)]

/-- Witness for C9 (amended) at mc = -20000 (i.e. -20 °C). -/
theorem c9_with_millicelsius_spec_witness :
    Temperature.with_millicelsius (-20000)
        = some (Temperature.with_millikelvin ((-20000 + 273150 : Int)).toNat) ∧
    (((-20000 + 273150 : Int)).toNat : Int) = -20000 + 273150 ∧
    Temperature.with_millicelsius (-273151 - (-20000 + 273150)) = none ∧
    Temperature.with_millicelsius (2147210498 + (-20000 + 273150)) = none :=
  c9_with_millicelsius_spec (-20000) (by decide) (by decide)

/-- C10: the `Temperature::celsius` accessor underflows (fails) on every
temperature stored below 273150 millikelvin, and such temperatures are
constructible via `with_millicelsius` with a negative argument. -/
theorem c10_celsius_underflow (t : Temperature)
    (h : t.millikelvin < 273150) :
    Temperature.celsius t = none ∧
    Temperature.with_millicelsius (-1000)
        = some (Temperature.with_millikelvin 272150) ∧
    (Temperature.with_millikelvin 272150).millikelvin < 273150 := by
  refine ⟨?_, by decide, by decide⟩
  simp only [Temperature.celsius]
  rw [if_pos h]

/-- Witness for C10 at the temperature produced by
`with_millicelsius (-1000)` (i.e. -1 °C). -/
theorem c10_celsius_underflow_witness :
    Temperature.celsius (Temperature.with_millikelvin 272150) = none ∧
    Temperature.with_millicelsius (-1000)
        = some (Temperature.with_millikelvin 272150) ∧
    (Temperature.with_millikelvin 272150).millikelvin < 273150 :=
  c10_celsius_underflow (Temperature.with_millikelvin 272150) (by decide)

/-- C1: for every 4-character aircraft-pressure token that parses to an
integer raw, `parse_aircraft_pressure` scales raw by 100 when
raw > 2000 (explicit leading digit) and scales raw + 10000 by 100
otherwise (implicit leading "10" restored); in particular "9236" gives
923600 microbars and "0234" gives 1023400 microbars. -/
theorem c1_parse_aircraft_pressure (pppp : List Char) (raw : Int)
    (_hlen : pppp.length = 4) (hp : parse_i32 pppp = some raw) :
    parse_aircraft_pressure pppp
        = some (Pressure.with_microbars
            (if raw > 2000 then raw * 100 else (raw + 10000) * 100)) ∧
    parse_aircraft_pressure (("9236").data)
        = some (Pressure.with_microbars 923600) ∧
    parse_aircraft_pressure (("0234").data)
        = some (Pressure.with_microbars 1023400) := by
  refine ⟨?_, by decide, by decide⟩
  obtain ⟨hb1, hb2⟩ := parse_i32_len4 pppp raw _hlen hp
  simp only [parse_aircraft_pressure, hp]
  by_cases hr : raw > 2000
  · rw [if_pos hr, if_neg (by omega), if_pos hr]
  · rw [if_neg hr, if_neg (by omega), if_neg hr]

/-- Witness for C1 at the token "9236". -/
theorem c1_parse_aircraft_pressure_witness :
    parse_aircraft_pressure (("9236").data)
        = some (Pressure.with_microbars
            (if (9236 : Int) > 2000 then 9236 * 100 else (9236 + 10000) * 100)) :=
  (c1_parse_aircraft_pressure (("9236").data) 9236 (by decide) (by decide)).1

/-- C2 counterexample: the token "99999999" parses as the integer raw =
99999999, yet at aircraft pressure 923000 microbars (the at-least-550 mb
branch) the decoder fails fatally — the i32 multiply raw * 100
overflows (checked arithmetic panics; wrapping arithmetic would give
1410065308, a wrapped value) — instead of producing the pressure
9999999900 microbars that the claim's leading-digit rule prescribes. -/
theorem c2_parse_esp_counterexample :
    parse_i32 (("99999999").data) = some 99999999 ∧
    parse_extrapolated_sfc_pressure (Pressure.with_microbars 923000)
        (("99999999").data) = none ∧
    parse_extrapolated_sfc_pressure (Pressure.with_microbars 923000)
        (("99999999").data)
      ≠ some (some (ExtrapolatedSurfacePressure.ExtrapolatedPressure
          (Pressure.with_microbars 9999999900))) := by
  exact ⟨by decide, by decide, by decide⟩

/-- C2 amended: `parse_extrapolated_sfc_pressure`: the `"///"` token is
absent; otherwise, below the 550 mb aircraft-pressure level the token
is a D-value with sign-folding above 5000, and at or above 550 mb it is
decoded with the aircraft-pressure leading-digit rule and wrapped as an
extrapolated pressure — provided the scaled i32 product stays in the
i32 range (|raw| ≤ 21474836); a token whose scaled value would overflow
the i32 multiply fails fatally in that branch instead (last conjunct,
at the token "99999999").  In particular "5200" below 550 mb gives
DValue(-200), and "0115" at 923000 microbars gives
ExtrapolatedPressure(1011500). -/
theorem c2_parse_extrapolated_sfc_pressure (p : Pressure)
    (toks : List Char) (raw : Int)
    (hne : toks ≠ MISSING) (hp : parse_i32 toks = some raw)
    (hlo : -21474836 ≤ raw) (hhi : raw ≤ 21474836) :
    parse_extrapolated_sfc_pressure p MISSING = some none ∧
    parse_extrapolated_sfc_pressure p toks
        = some (some (if p.millibars < 550 then
            ExtrapolatedSurfacePressure.DValue
              (DValue.with_meters (if raw > 5000 then -(raw - 5000) else raw))
          else
            ExtrapolatedSurfacePressure.ExtrapolatedPressure
              (Pressure.with_microbars
                (if raw > 2000 then raw * 100 else (raw + 10000) * 100)))) ∧
    (p.millibars < 550 →
      parse_extrapolated_sfc_pressure p (("5200").data)
        = some (some (ExtrapolatedSurfacePressure.DValue
            (DValue.with_meters (-200))))) ∧
    parse_extrapolated_sfc_pressure (Pressure.with_microbars 923000)
        (("0115").data)
      = some (some (ExtrapolatedSurfacePressure.ExtrapolatedPressure
          (Pressure.with_microbars 1011500))) ∧
    (550 ≤ p.millibars →
      parse_extrapolated_sfc_pressure p (("99999999").data) = none) := by
  refine ⟨?_, ?_, ?_, by decide, ?_⟩
  · simp [parse_extrapolated_sfc_pressure]
  · simp only [parse_extrapolated_sfc_pressure]
    rw [if_neg hne]
    by_cases hlt : p.millibars < 550
    · rw [if_pos hlt, hp, if_pos hlt]
      by_cases hr : raw > 5000 <;> simp [hr, neg_one_mul]
    · rw [if_neg hlt, if_neg hlt]
      simp only [parse_aircraft_pressure, hp]
      by_cases hr : raw > 2000
      · rw [if_pos hr, if_neg (by omega)]
        simp [hr]
      · rw [if_neg hr, if_neg (by omega)]
        simp [hr]
  · intro hlt
    simp only [parse_extrapolated_sfc_pressure]
    rw [if_neg (by decide), if_pos hlt]
    decide
  · intro h550
    simp only [parse_extrapolated_sfc_pressure]
    rw [if_neg (by decide), if_neg (not_lt.mpr h550)]
    decide

/-- Witness for C2 (amended) at aircraft pressure 400000 microbars
(400 mb, below the 550 mb threshold) with token "5200", and at 923000
microbars with tokens "0115" and "99999999". -/
theorem c2_parse_extrapolated_sfc_pressure_witness :
    parse_extrapolated_sfc_pressure (Pressure.with_microbars 400000) MISSING
        = some none ∧
    parse_extrapolated_sfc_pressure (Pressure.with_microbars 400000)
        (("5200").data)
      = some (some (ExtrapolatedSurfacePressure.DValue
          (DValue.with_meters (-200)))) ∧
    parse_extrapolated_sfc_pressure (Pressure.with_microbars 923000)
        (("0115").data)
      = some (some (ExtrapolatedSurfacePressure.ExtrapolatedPressure
          (Pressure.with_microbars 1011500))) ∧
    parse_extrapolated_sfc_pressure (Pressure.with_microbars 923000)
        (("99999999").data) = none := by
  have h := c2_parse_extrapolated_sfc_pressure
    (Pressure.with_microbars 400000) (("5200").data) 5200
    (by decide) (by decide) (by decide) (by decide)
  have h2 := c2_parse_extrapolated_sfc_pressure
    (Pressure.with_microbars 923000) (("0115").data) 115
    (by decide) (by decide) (by decide) (by decide)
  exact ⟨h.1, h.2.2.1 (by decide), h.2.2.2.1, h2.2.2.2.2 (by decide)⟩

/-- C4: every optional-field decoder maps the `"///"` sentinel to the
absent value without failing, and a full observation line with the
sentinel in every optional column parses successfully with all optional
fields absent. -/
theorem c4_missing_sentinel_absent :
    (∀ p : Pressure,
      parse_extrapolated_sfc_pressure p MISSING = some none) ∧
    parse_temperature MISSING = some none ∧
    parse_wind MISSING = none ∧
    parse_speed MISSING = none ∧
    parse_rain_rate MISSING = none ∧
    HDHALog.parse DATE0 LINE_MISSING = some LOG_MISSING := by
  refine ⟨fun p => ?_, by decide, by decide, by decide, by decide, by decide⟩
  simp [parse_extrapolated_sfc_pressure]

/-- C5 counterexample: the temperature decoder maps the non-numeric,
non-sentinel token "abc" to the absent value (`some none`) instead of
failing fatally (`none`), contradicting the claim that any non-numeric
token other than the sentinel is fatal. -/
theorem c5_nonnumeric_counterexample :
    parse_temperature (("abc").data) = some none ∧
    parse_temperature (("abc").data) ≠ none := by
  exact ⟨by decide, by decide⟩

/-- C5 amended: only the ESP/D-value decoder distinguishes the sentinel
from other unparsable tokens — it fails fatally on a non-numeric token
other than `"///"` — while the temperature, wind, peak-wind/SFMR speed
and rain-rate decoders attempt the numeric parse directly and yield the
absent value on every unparsable token, sentinel or not. -/
theorem c5_nonnumeric_amended (p : Pressure) (t u : List Char)
    (hne : t ≠ MISSING) (ht : parse_i32 t = none) (hu : parse_u32 u = none) :
    parse_extrapolated_sfc_pressure p t = none ∧
    parse_temperature t = some none ∧
    parse_wind u = none ∧
    parse_speed u = none ∧
    parse_rain_rate u = none := by
  refine ⟨?_, ?_, ?_, ?_, ?_⟩
  · simp only [parse_extrapolated_sfc_pressure]
    rw [if_neg hne]
    by_cases hlt : p.millibars < 550
    · rw [if_pos hlt, ht]
    · rw [if_neg hlt]
      simp only [parse_aircraft_pressure]
      rw [ht]
  · simp only [parse_temperature]
    rw [ht]
  · simp only [parse_wind]
    rw [hu]
  · simp only [parse_speed]
    rw [hu]
  · simp only [parse_rain_rate]
    rw [hu]

/-- Witness for the amended C5 at the token "abc". -/
theorem c5_nonnumeric_amended_witness :
    parse_extrapolated_sfc_pressure (Pressure.with_microbars 923000)
        (("abc").data) = none ∧
    parse_temperature (("abc").data) = some none ∧
    parse_wind (("abc").data) = none ∧
    parse_speed (("abc").data) = none ∧
    parse_rain_rate (("abc").data) = none :=
  c5_nonnumeric_amended (Pressure.with_microbars 923000) (("abc").data)
    (("abc").data) (by decide) (by decide) (by decide)

/-- C3: the tens digit of a two-digit quality code decodes to the
(lat/lon, alt/pressure) pair per the table 0..3, the ones digit to the
(temp/dewpoint, winds, SFMR) triple per the table 0..6 and 9, and any
other digit (tens digit above 3, ones digit 7 or 8) makes the whole
line parse fail; in particular the test line with code 00 parses with
all five flags false, and the same line with code 93 fails. -/
theorem c3_quality_code (q : Nat) (hq : q < 100) :
    posQualityFlags (q / 10)
        = (if q / 10 = 0 then some (false, false)
           else if q / 10 = 1 then some (true, false)
           else if q / 10 = 2 then some (false, true)
           else if q / 10 = 3 then some (true, true)
           else none) ∧
    metQualityFlags (q % 10)
        = (if q % 10 = 0 then some (false, false, false)
           else if q % 10 = 1 then some (true, false, false)
           else if q % 10 = 2 then some (false, true, false)
           else if q % 10 = 3 then some (false, false, true)
           else if q % 10 = 4 then some (true, true, false)
           else if q % 10 = 5 then some (true, false, true)
           else if q % 10 = 6 then some (false, true, true)
           else if q % 10 = 9 then some (true, true, true)
           else none) ∧
    (∀ (date : UtcDate)
        (t0 t1 t2 t3 t4 t5 t6 t7 t8 t9 t10 t11 t12 : List Char)
        (rest : List (List Char)),
      parse_u8 t12 = some q →
      3 < q / 10 ∨ q % 10 = 7 ∨ q % 10 = 8 →
      HDHALog.parseCols date
        (t0 :: t1 :: t2 :: t3 :: t4 :: t5 :: t6 :: t7 :: t8 :: t9 :: t10 ::
          t11 :: t12 :: rest) = none) ∧
    (HDHALog.parse DATE0 LINE1).map (fun log =>
        (log.latlon_questionable, log.altitude_or_pressure_questionable,
         log.temp_or_dewpoint_questionable, log.winds_questionable,
         log.sfmr_questionable))
      = some (false, false, false, false, false) ∧
    HDHALog.parse DATE0 LINE93 = none := by
  refine ⟨?_, ?_, ?_, by decide, by decide⟩
  · exact (by decide :
      ∀ n, n < 100 →
        posQualityFlags (n / 10)
          = (if n / 10 = 0 then some (false, false)
             else if n / 10 = 1 then some (true, false)
             else if n / 10 = 2 then some (false, true)
             else if n / 10 = 3 then some (true, true)
             else none)) q hq
  · exact (by decide :
      ∀ n, n < 100 →
        metQualityFlags (n % 10)
          = (if n % 10 = 0 then some (false, false, false)
             else if n % 10 = 1 then some (true, false, false)
             else if n % 10 = 2 then some (false, true, false)
             else if n % 10 = 3 then some (false, false, true)
             else if n % 10 = 4 then some (true, true, false)
             else if n % 10 = 5 then some (true, false, true)
             else if n % 10 = 6 then some (false, true, true)
             else if n % 10 = 9 then some (true, true, true)
             else none)) q hq
  · intro date t0 t1 t2 t3 t4 t5 t6 t7 t8 t9 t10 t11 t12 rest hq12 hbad
    have hflag : posQualityFlags (q / 10) = none ∨
        metQualityFlags (q % 10) = none := by
      rcases hbad with h | h | h
      · exact Or.inl (posQualityFlags_gt_three _ h)
      · exact Or.inr (by rw [h]; decide)
      · exact Or.inr (by rw [h]; decide)
    simp only [HDHALog.parseCols]
    refine bind_none_of_mem fun time _ => ?_
    refine bind_none_of_mem fun location _ => ?_
    refine bind_none_of_mem fun aircraft_pressure _ => ?_
    refine bind_none_of_mem fun heightRaw _ => ?_
    refine bind_none_of_mem fun surface_pressure _ => ?_
    refine bind_none_of_mem fun temp _ => ?_
    refine bind_none_of_mem fun dewpoint _ => ?_
    refine bind_none_of_mem fun quality hquality => ?_
    rw [hq12] at hquality
    obtain rfl : quality = q := by
      injection hquality with hv
      exact hv.symm
    rcases hflag with h | h
    · rw [h]
      rfl
    · refine bind_none_of_mem fun pos _ => ?_
      beta_reduce
      rw [h]
      rfl

/-- Witness for C3 at the quality code 93 (tens digit 9 is invalid). -/
theorem c3_quality_code_witness :
    HDHALog.parseCols DATE0
      (("181830").data :: ("2006N").data :: ("06141W").data ::
        ("9236").data :: ("00794").data :: ("0115").data ::
        ("+201").data :: ("+173").data :: ("123041").data ::
        ("041").data :: ("021").data :: ("002").data ::
        ("93").data :: [])
      = none :=
  (c3_quality_code 93 (by decide)).2.2.1 DATE0 _ _ _ _ _ _ _ _ _ _ _ _ _ []
    (by decide) (by decide)

/-- C6: the observation loop stops at the first line equal to `"$$"`:
the sentinel line itself is not parsed or collected, lines after it are
ignored, and the collected observations are exactly the in-order parses
of the lines before the sentinel (insertion order preserved, one
observation per line). -/
theorem c6_message_stops_at_sentinel (date : UtcDate)
    (pre post : List (List Char)) (logs : List HDHALog)
    (hpre : END_MARKER ∉ pre)
    (hparse : pre.mapM (HDHALog.parse date) = some logs) :
    HDOBMessage.parseObsLines date (pre ++ END_MARKER :: post) = some logs ∧
    logs.length = pre.length := by
  induction pre generalizing logs with
  | nil =>
    have hnil : (some [] : Option (List HDHALog)) = some logs := hparse
    obtain rfl : logs = [] := by
      injection hnil with h
      exact h.symm
    constructor
    · simp [HDOBMessage.parseObsLines]
    · rfl
  | cons l pre ih =>
    rw [List.mapM_cons] at hparse
    have hl : l ≠ END_MARKER := fun h => hpre (by rw [h]; exact List.mem_cons_self _ _)
    have hpre2 : END_MARKER ∉ pre := fun h => hpre (List.mem_cons_of_mem _ h)
    cases hb : HDHALog.parse date l with
    | none =>
      rw [hb] at hparse
      exact absurd hparse (by simp)
    | some b =>
    cases hm : pre.mapM (HDHALog.parse date) with
    | none =>
      rw [hb, hm] at hparse
      exact absurd hparse (by simp)
    | some bs =>
    rw [hb, hm] at hparse
    obtain rfl : logs = b :: bs := by
      have hsome : (some (b :: bs) : Option (List HDHALog)) = some logs := hparse
      injection hsome with h
      exact h.symm
    obtain ⟨ih1, ih2⟩ := ih bs hpre2 hm
    constructor
    · rw [List.cons_append]
      simp only [HDOBMessage.parseObsLines]
      rw [if_neg hl, hb, ih1]
      rfl
    · simp [ih2]

/-- Witness for C6: one parsable line, then the sentinel, then a junk
line that must be ignored. -/
theorem c6_message_stops_at_sentinel_witness :
    HDOBMessage.parseObsLines DATE0
        ([LINE_MISSING] ++ END_MARKER :: [LINE1]) = some [LOG_MISSING] ∧
    ([LOG_MISSING] : List HDHALog).length = [LINE_MISSING].length :=
  c6_message_stops_at_sentinel DATE0 [LINE_MISSING] [LINE1] [LOG_MISSING]
    (by decide) (by decide)

/-- C8 counterexample: a line with 14 whitespace-separated tokens (one
extra trailing token) parses successfully, contradicting the claim
that any token count other than 13 makes the line parse fail. -/
theorem c8_token_count_counterexample :
    (splitSpaces LINE14).length = 14 ∧
    HDHALog.parse DATE0 LINE14 ≠ none := by
  exact ⟨by decide, by decide⟩

/-- C8 amended: fewer than 13 tokens (a missing token at any position)
is fatal, and the parser consumes exactly the first 13 tokens in the
fixed column order, ignoring every token after the 13th, so a line with
more than 13 tokens is not rejected for its extra tokens. -/
theorem c8_token_count_amended (date : UtcDate) (cols : List (List Char))
    (hlen : cols.length < 13)
    (t0 t1 t2 t3 t4 t5 t6 t7 t8 t9 t10 t11 t12 : List Char)
    (rest : List (List Char)) :
    HDHALog.parseCols date cols = none ∧
    HDHALog.parseCols date
        (t0 :: t1 :: t2 :: t3 :: t4 :: t5 :: t6 :: t7 :: t8 :: t9 :: t10 ::
          t11 :: t12 :: rest)
      = HDHALog.parseCols date
          [t0, t1, t2, t3, t4, t5, t6, t7, t8, t9, t10, t11, t12] := by
  constructor
  · rcases cols with _ | ⟨a0, cols⟩
    · rfl
    rcases cols with _ | ⟨a1, cols⟩
    · rfl
    rcases cols with _ | ⟨a2, cols⟩
    · rfl
    rcases cols with _ | ⟨a3, cols⟩
    · rfl
    rcases cols with _ | ⟨a4, cols⟩
    · rfl
    rcases cols with _ | ⟨a5, cols⟩
    · rfl
    rcases cols with _ | ⟨a6, cols⟩
    · rfl
    rcases cols with _ | ⟨a7, cols⟩
    · rfl
    rcases cols with _ | ⟨a8, cols⟩
    · rfl
    rcases cols with _ | ⟨a9, cols⟩
    · rfl
    rcases cols with _ | ⟨a10, cols⟩
    · rfl
    rcases cols with _ | ⟨a11, cols⟩
    · rfl
    rcases cols with _ | ⟨a12, cols⟩
    · rfl
    simp only [List.length_cons] at hlen
    omega
  · rfl

/-- Witness for C8 (amended): the empty token list fails, and the
13 tokens of the test line decode identically with and without an
extra trailing token. -/
theorem c8_token_count_amended_witness :
    HDHALog.parseCols DATE0 [] = none ∧
    HDHALog.parseCols DATE0
        (("181830").data :: ("2006N").data :: ("06141W").data ::
          ("9236").data :: ("00794").data :: ("0115").data ::
          ("+201").data :: ("+173").data :: ("123041").data ::
          ("041").data :: ("021").data :: ("002").data ::
          ("00").data :: [("99").data])
      = HDHALog.parseCols DATE0
          [("181830").data, ("2006N").data, ("06141W").data,
           ("9236").data, ("00794").data, ("0115").data,
           ("+201").data, ("+173").data, ("123041").data,
           ("041").data, ("021").data, ("002").data, ("00").data] :=
  c8_token_count_amended DATE0 [] (by decide) (("181830").data)
    (("2006N").data) (("06141W").data) (("9236").data) (("00794").data)
    (("0115").data) (("+201").data) (("+173").data) (("123041").data)
    (("041").data) (("021").data) (("002").data) (("00").data)
    [("99").data]

end Libcyclone
